import Mathlib

/-!
Verification of the microphone-arbitration and capture-coordination logic of
the rpi-robot-core voice pipeline.

The development shallowly embeds the behaviour of
`src/services/voice_gateway/wake_listener.py`,
`src/services/voice_gateway/voice_gateway.py` and
`src/services/dialogue_router/dialogue_router.py`.

External collaborators (the MQTT client library, the Wyoming protocol
client, the `audioop`/`wave` standard-library modules, `arecord`/`aplay`
subprocesses, `json.loads` and `datetime`) are modelled through their
observable contracts: their outcomes appear as explicit environment values
so that every behaviour of the Python code corresponds to some choice of
environment.
-/

namespace RpiRobot

/-! ## Wake-event cooldown (wake_listener.py, `stream_and_listen`, lines 156-171)

On a recognizer `wake` event the listener checks
`if now - last_wake_ts < WAKE_COOLDOWN: continue`; only when the check
fails does it update `last_wake_ts`, publish `wake/detected`, start the
beep and (further down the handler) publish the `stt/capture` request.
Times are modelled as rationals (`time.time()` is a real-valued epoch
clock; its start value is a parameter). -/

/-- Bus/process side effects of one accepted wake detection, in the order
the handler performs them. -/
inductive WakeOut
  | pubWake
  | beep
  | pubCapture
deriving DecidableEq, Repr

/-- One iteration of the `et == "wake"` branch of `stream_and_listen`:
given the cooldown, the stored `last_wake_ts` and the current clock,
returns the new `last_wake_ts` and the emitted side effects. -/
def onWakeEvent (cooldown last now : ℚ) : ℚ × List WakeOut :=
  if now - last < cooldown then (last, [])
  else (now, [.pubWake, .beep, .pubCapture])

/-- Folding `onWakeEvent` over a list of wake-event arrival times,
collecting the times whose events were accepted (published). -/
def acceptedWakes (cooldown : ℚ) : ℚ → List ℚ → List ℚ
  | _, [] => []
  | last, t :: rest =>
    match onWakeEvent cooldown last t with
    | (last1, []) => acceptedWakes cooldown last1 rest
    | (last1, _ :: _) => t :: acceptedWakes cooldown last1 rest

/-! ## TTS playback entry (voice_gateway.py, `tts_play_48k` lines 62-65 and
`on_message` lines 196-199)

`on_message` strips the payload (`payload.decode("utf-8","ignore").strip()`)
and hands it to `tts_play_48k`, which returns immediately when the text is
falsy (`if not text: return`); otherwise it sends one `synthesize` request,
and spawns an `aplay` process only when the synthesis returned audio. -/

/-- Model of Python `str.strip()`'s whitespace class (ASCII part). -/
def isPySpace (c : Char) : Bool :=
  c = ' ' || c = '\t' || c = '\n' || c = '\r' || c = '\x0b' || c = '\x0c'

/-- Model of Python `str.strip()`: drop whitespace from both ends. -/
def pyStrip (s : String) : String :=
  String.mk (((s.data.dropWhile isPySpace).reverse.dropWhile isPySpace).reverse)

/-- Format descriptor of a synthesized audio buffer
(`AudioStart {rate, width, channels}`); `0` models a falsy/absent field. -/
structure SynthFmt where
  width : Nat
  channels : Nat
  rate : Nat
deriving DecidableEq, Repr

/-- Externally observable actions of one `tts_play_48k` call. -/
structure TtsRun where
  synthRequests : Nat
  playbackSpawned : Nat
deriving DecidableEq, Repr

/-- `tts_play_48k(text)`: no-op on falsy text, otherwise one synthesis
request; an `aplay` process is spawned only when synthesis returned audio
(`synthResult` models the `_synth()` outcome). -/
def tts_play_48k (synthResult : Option (SynthFmt × List Int)) (text : String) : TtsRun :=
  if text = "" then { synthRequests := 0, playbackSpawned := 0 }
  else match synthResult with
    | none => { synthRequests := 1, playbackSpawned := 0 }
    | some _ => { synthRequests := 1, playbackSpawned := 1 }

/-- The `tts/say` branch of the gateway's `on_message`: strip the payload,
then call `tts_play_48k`. -/
def onTtsMessage (synthResult : Option (SynthFmt × List Int)) (payload : String) : TtsRun :=
  tts_play_48k synthResult (pyStrip payload)

/-! ## Theorems for claims C4 and C7 -/

theorem dropWhile_all_sat {p : Char → Bool} :
    ∀ l : List Char, (∀ c ∈ l, p c = true) → l.dropWhile p = [] := by
  intro l h
  induction l with
  | nil => rfl
  | cons a t ih =>
    have ha : p a = true := h a (List.mem_cons_self a t)
    simp [List.dropWhile, ha]
    exact fun c hc => h c (List.mem_cons_of_mem a hc)

theorem pyStrip_all_space (s : String) (h : ∀ c ∈ s.data, isPySpace c = true) :
    pyStrip s = "" := by
  unfold pyStrip
  rw [dropWhile_all_sat s.data h]
  rfl

/-- C4: a recognizer wake event arriving within the cooldown window of the
last accepted wake event is discarded without side effects — no
`wake/detected` publish, no beep, no `stt/capture` request, and no change
to `last_wake_ts`; and for a stream starting at clock `t0 ≥ cooldown`
(every real epoch clock satisfies this) with cooldown 1 s, events at
`t0` and `t0 + 0.5` result in only the first being published. -/
theorem wake_cooldown_discard :
    (∀ cd last now : ℚ, now - last < cd → onWakeEvent cd last now = (last, [])) ∧
    (∀ t0 : ℚ, 1 ≤ t0 → acceptedWakes 1 0 [t0, t0 + 1/2] = [t0]) := by
  constructor
  · intro cd last now h
    simp [onWakeEvent, h]
  · intro t0 h
    have h1 : ¬(t0 - 0 < 1) := by linarith
    have h2 : t0 + 1/2 - t0 < 1 := by linarith
    have e1 : onWakeEvent 1 0 t0 = (t0, [.pubWake, .beep, .pubCapture]) := by
      simp only [onWakeEvent, if_neg h1]
    have e2 : onWakeEvent 1 t0 (t0 + 1/2) = (t0, []) := by
      simp only [onWakeEvent, if_pos h2]
    simp only [acceptedWakes, e1, e2]

/-- Witness for `wake_cooldown_discard` at concrete inputs. -/
theorem wake_cooldown_discard_witness :
    onWakeEvent 1 0 (1/2) = (0, []) ∧ acceptedWakes 1 0 [5, 5 + 1/2] = [5] :=
  ⟨wake_cooldown_discard.1 1 0 (1/2) (by norm_num),
   wake_cooldown_discard.2 5 (by norm_num)⟩

/-- C7: a `tts/say` payload that is empty or consists only of whitespace is
a no-op — zero synthesis requests are sent and zero playback processes are
spawned, for every possible synthesis environment. -/
theorem tts_whitespace_noop :
    ∀ (synthResult : Option (SynthFmt × List Int)) (payload : String),
      (∀ c ∈ payload.data, isPySpace c = true) →
      onTtsMessage synthResult payload = { synthRequests := 0, playbackSpawned := 0 } := by
  intro sr payload h
  unfold onTtsMessage
  rw [pyStrip_all_space payload h]
  rfl

/-- Witness for `tts_whitespace_noop` on the all-whitespace payload of
Scenario D. -/
theorem tts_whitespace_noop_witness :
    onTtsMessage none " \t " = { synthRequests := 0, playbackSpawned := 0 } :=
  tts_whitespace_noop none " \t " (by decide)

/-! ## Wake-listener suspend path (wake_listener.py, `stream_and_listen`
lines 173-181 and `stop_arecord` lines 115-125)

After an accepted wake event the handler runs, in order:
`pump_task.cancel()`, `await pump_task` (cancellation awaited to
completion), `await stop_arecord(proc)`, then
`mqtt_publish(TOPIC_STT_CAPTURE, ...)`.

`stop_arecord` sends SIGTERM, awaits exit for at most 1 s; on timeout it
sends SIGKILL and awaits exit for at most 1 s more, suppressing a second
timeout — so it can return with the process still running.  The booleans
`exitsOnTerm` / `exitsOnKill` are the environment: whether the process
exits within the first / second bounded wait (at the suspend path the
process is live, so the `returncode is None` guard holds). -/

/-- Observable events of the suspend path, in emission order. -/
inductive WkEv
  | pumpCancelled
  | pumpAwaited
  | procTerminated
  | procKilled
  | procExitConfirmed
  | capturePublished
deriving DecidableEq, Repr

/-- `stop_arecord(proc)` on a live process: emitted events and whether the
process is still alive when the call returns. -/
def stop_arecord (exitsOnTerm exitsOnKill : Bool) : List WkEv × Bool :=
  if exitsOnTerm then ([.procTerminated, .procExitConfirmed], false)
  else if exitsOnKill then ([.procTerminated, .procKilled, .procExitConfirmed], false)
  else ([.procTerminated, .procKilled], true)

/-- The suspend path of `stream_and_listen` on an accepted wake event:
cancel the frame pump, await its cancellation, stop the wake-capture
process, then publish the `stt/capture` request.  Returns the event trace
and whether the wake-capture process is still alive at the publish. -/
def suspendSeq (exitsOnTerm exitsOnKill : Bool) : List WkEv × Bool :=
  let s := stop_arecord exitsOnTerm exitsOnKill
  ([.pumpCancelled, .pumpAwaited] ++ s.1 ++ [.capturePublished], s.2)

/-! ## TTS format conversion (voice_gateway.py, `tts_play_48k` / `_synth`
lines 91-113)

The synthesized buffer is downmixed with `audioop.tomono` only when
`channels == 2`, converted to width 2 with `audioop.lin2lin` when
`width != 2`, resampled with `audioop.ratecv(data, 2, 1, rate, 48000)`,
and wrapped by the `wave` module with the header fields 1 channel /
2 bytes / 48000 Hz regardless of the data.  The three `audioop`
primitives are external collaborators, modelled on integer sample lists:
`tomono` averages interleaved stereo pairs, `lin2lin` rescales sample
values between widths, `ratecv` is a nearest-sample rate conversion. -/

/-- Model of `audioop.tomono(data, width, 0.5, 0.5)` on interleaved
stereo samples. -/
def audioop_tomono : List Int → List Int
  | l :: r :: rest => ((l + r) / 2) :: audioop_tomono rest
  | _ => []

/-- Model of `audioop.lin2lin(data, width, 2)`: rescale each sample from
`width` bytes to 2 bytes. -/
def audioop_lin2lin (width : Nat) (data : List Int) : List Int :=
  data.map fun x => x * (2 : Int) ^ (32 - 8 * width) / 2 ^ 16

/-- Model of `audioop.ratecv(data, 2, 1, src, dst, None)`: nearest-sample
rate conversion from `src` Hz to `dst` Hz. -/
def audioop_ratecv (data : List Int) (src dst : Nat) : List Int :=
  (List.range (data.length * dst / src)).map fun i => data.getD (i * src / dst) 0

/-- The WAV container written with `wave`: header fields and frame data. -/
structure WavOut where
  nchannels : Nat
  sampwidth : Nat
  framerate : Nat
  frames : List Int
deriving DecidableEq, Repr

/-- Result of the conversion: the WAV container plus the actual format of
the sample data that went into it (the final values of the local
`channels`/`width` variables and the rate produced by `ratecv`). -/
structure TtsAudio where
  wav : WavOut
  dataChannels : Nat
  dataWidth : Nat
  dataRate : Nat
deriving DecidableEq, Repr

/-- The pure conversion performed by `_synth` after collecting the PCM:
`width = fmt.width or 2`, `channels = fmt.channels or 1`,
`rate = fmt.rate or 16000`, downmix iff `channels == 2`, widen iff
`width != 2`, resample to 48000, wrap in a WAV header that always claims
mono / 16-bit / 48000 Hz. -/
def tts_transform (fmt : SynthFmt) (pcm : List Int) : TtsAudio :=
  let width := if fmt.width = 0 then 2 else fmt.width
  let channels := if fmt.channels = 0 then 1 else fmt.channels
  let rate := if fmt.rate = 0 then 16000 else fmt.rate
  let data1 := if channels = 2 then audioop_tomono pcm else pcm
  let channels1 := if channels = 2 then 1 else channels
  let data2 := if width ≠ 2 then audioop_lin2lin width data1 else data1
  let width1 := if width ≠ 2 then 2 else width
  let resamp := audioop_ratecv data2 rate 48000
  { wav := { nchannels := 1, sampwidth := 2, framerate := 48000, frames := resamp },
    dataChannels := channels1, dataWidth := width1, dataRate := 48000 }

/-! ## Theorems for claims C2 and C8 -/

/-- C2 counterexample: when the wake-capture process survives both bounded
waits of `stop_arecord` (SIGTERM + 1 s, SIGKILL + 1 s — e.g. blocked in
uninterruptible device I/O), the suspend path emits the `stt/capture`
request without ever confirming the process exit, with the process still
alive.  This refutes the claim that on every wake detection the exit is
awaited *and confirmed* before the capture request is emitted. -/
theorem suspend_publish_unconfirmed :
    WkEv.procExitConfirmed ∉ (suspendSeq false false).1 ∧
    WkEv.capturePublished ∈ (suspendSeq false false).1 ∧
    (suspendSeq false false).2 = true := by
  decide

/-- C2 amended: on every wake detection entering the suspend path, the
frame pump is cancelled and its cancellation awaited to completion before
the process is signalled, and the capture request is published last; the
process exit is awaited with bounded timeouts, and whenever the process
exits within those bounds its exit is confirmed before the capture request
is emitted (and it is no longer alive at the publish). -/
theorem suspend_ordering_amended :
    ∀ exitsOnTerm exitsOnKill : Bool,
      (suspendSeq exitsOnTerm exitsOnKill).1.indexOf WkEv.pumpCancelled <
        (suspendSeq exitsOnTerm exitsOnKill).1.indexOf WkEv.procTerminated ∧
      (suspendSeq exitsOnTerm exitsOnKill).1.indexOf WkEv.pumpAwaited <
        (suspendSeq exitsOnTerm exitsOnKill).1.indexOf WkEv.procTerminated ∧
      (suspendSeq exitsOnTerm exitsOnKill).1.getLast? = some WkEv.capturePublished ∧
      ((exitsOnTerm = true ∨ exitsOnKill = true) →
        (suspendSeq exitsOnTerm exitsOnKill).2 = false ∧
        WkEv.procExitConfirmed ∈ (suspendSeq exitsOnTerm exitsOnKill).1 ∧
        (suspendSeq exitsOnTerm exitsOnKill).1.indexOf WkEv.procExitConfirmed <
          (suspendSeq exitsOnTerm exitsOnKill).1.indexOf WkEv.capturePublished) := by
  intro eT eK
  cases eT <;> cases eK <;> decide

/-- Witness for `suspend_ordering_amended`: a process that exits on
SIGTERM has its exit confirmed before the capture request is published. -/
theorem suspend_ordering_amended_witness :
    (suspendSeq true false).2 = false ∧
    WkEv.procExitConfirmed ∈ (suspendSeq true false).1 :=
  ⟨((suspend_ordering_amended true false).2.2.2 (Or.inl rfl)).1,
   ((suspend_ordering_amended true false).2.2.2 (Or.inl rfl)).2.1⟩

/-- C8 counterexample: a 4-channel synthesized buffer is not downmixed
(`tomono` runs only when `channels == 2`), so the sample data entering the
WAV container still has 4 interleaved channels even though the header
claims mono.  This refutes the claim that for *any* channel count the
output is mono (downmixed if multi-channel). -/
theorem tts_transform_not_mono_multichannel :
    (tts_transform { width := 2, channels := 4, rate := 16000 } [1, 2, 3, 4]).dataChannels = 4 ∧
    (tts_transform { width := 2, channels := 4, rate := 16000 } [1, 2, 3, 4]).wav.nchannels = 1 ∧
    (4 : Nat) ≠ 1 := by
  decide

/-- C8 amended: for synthesized buffers with at most 2 channels (mono or
stereo, the shapes the recognizer contract produces), the transform is a
pure function producing mono data (stereo downmixed), 16-bit width, a
48000 Hz rate, wrapped in a WAV container whose header matches. -/
theorem tts_transform_mono_16_48k :
    ∀ (fmt : SynthFmt) (pcm : List Int), fmt.channels ≤ 2 →
      (tts_transform fmt pcm).dataChannels = 1 ∧
      (tts_transform fmt pcm).dataWidth = 2 ∧
      (tts_transform fmt pcm).dataRate = 48000 ∧
      (tts_transform fmt pcm).wav.nchannels = 1 ∧
      (tts_transform fmt pcm).wav.sampwidth = 2 ∧
      (tts_transform fmt pcm).wav.framerate = 48000 := by
  intro fmt pcm h
  obtain ⟨w, c, r⟩ := fmt
  simp only [tts_transform]
  interval_cases c <;> split_ifs <;> simp_all

/-- Witness for `tts_transform_mono_16_48k` on a concrete stereo 8-bit
buffer. -/
theorem tts_transform_mono_16_48k_witness :
    (tts_transform { width := 1, channels := 2, rate := 22050 } [10, 20]).dataChannels = 1 ∧
    (tts_transform { width := 1, channels := 2, rate := 22050 } [10, 20]).dataWidth = 2 ∧
    (tts_transform { width := 1, channels := 2, rate := 22050 } [10, 20]).dataRate = 48000 ∧
    (tts_transform { width := 1, channels := 2, rate := 22050 } [10, 20]).wav.nchannels = 1 ∧
    (tts_transform { width := 1, channels := 2, rate := 22050 } [10, 20]).wav.sampwidth = 2 ∧
    (tts_transform { width := 1, channels := 2, rate := 22050 } [10, 20]).wav.framerate = 48000 :=
  tts_transform_mono_16_48k { width := 1, channels := 2, rate := 22050 } [10, 20] (by decide)

/-! ## Speech capture (voice_gateway.py, `stt_once` lines 131-184 and the
`stt/capture` branch of `on_message` lines 200-222)

`stt_once` spawns the capture `arecord -d seconds` process, connects to
the STT service, writes `AudioStart`, streams chunks with a bounded read
timeout (`seconds + 2`, a timeout is caught and logged), writes
`AudioStop` in a `finally`, waits for a transcript-class event until the
deadline `max(6, seconds + 3)` (an empty/missing text field still breaks
the wait because `"" or None` is `None`), disconnects in a `finally`, and
then waits up to 2 s for the process with all errors swallowed.  It never
sends the capture process a signal.  Exceptions raised outside the two
`try` blocks (connect, `AudioStart` write, the `finally` `AudioStop`
write, a non-timeout streaming error) propagate out of `stt_once`, past
the disconnect.

`on_message` parses the payload, drops the request if `stt_busy` is set,
otherwise sets `stt_busy`, runs `stt_once` on the worker loop and, in the
future's done-callback, publishes `{text, secs}` to `stt/text` iff the
transcript is truthy, then clears `stt_busy` — also when `stt_once`
raised.

The environment (`SttEnv`) fixes the outcome of every external
interaction, so each Python execution path corresponds to one value. -/

/-- Outcome of one iteration of the chunk-streaming loop:
data read, EOF, `asyncio.TimeoutError` from `wait_for`, or another
exception (from the read or the chunk write). -/
inductive ChunkOut
  | data
  | eof
  | rtimeout
  | rerr
deriving DecidableEq, Repr

/-- Outcome of one iteration of the transcript-wait loop: deadline
timeout raised by `wait_for`, stream end (`evt is None`), another
exception, or an event with a type and optional `text` field (`none`
models both a missing and a JSON-null field). -/
inductive EvtOut
  | etimeout
  | eend
  | eerr
  | evt (ty : String) (text : Option String)
deriving DecidableEq, Repr

/-- Environment of one `stt_once` run. `procSelfExited` says whether the
`arecord` process exited on its own during the run (the code never
signals it). -/
structure SttEnv where
  connectOk : Bool
  startOk : Bool
  chunks : List ChunkOut
  stopOk : Bool
  evts : List EvtOut
  procSelfExited : Bool
deriving Repr

/-- How the chunk-streaming loop ended. -/
inductive PhaseEnd
  | normal
  | timedOut
  | errored
deriving DecidableEq, Repr

/-- The chunk-streaming loop: reads until EOF (normal), a read timeout
(caught: `except asyncio.TimeoutError`), or another exception. -/
def chunkPhase : List ChunkOut → PhaseEnd
  | [] => .normal
  | .data :: rest => chunkPhase rest
  | .eof :: _ => .normal
  | .rtimeout :: _ => .timedOut
  | .rerr :: _ => .errored

/-- The transcript-wait loop body: skip events that are not
transcript-class; on a transcript-class event compute
`data.get("text") or transcript` (with `transcript` previously `None`)
and break; `.error ()` models an exception propagating (deadline
`TimeoutError` or a read error); an exhausted list models the
`while time.time() < deadline` condition expiring between events. -/
def evtPhase : List EvtOut → Except Unit (Option String)
  | [] => .ok none
  | .etimeout :: _ => .error ()
  | .eend :: _ => .ok none
  | .eerr :: _ => .error ()
  | .evt ty txt :: rest =>
    if ty = "transcript" ∨ ty = "text" then
      .ok (match txt with
           | some t => if t = "" then none else some t
           | none => none)
    else evtPhase rest

/-- Trace events of a capture run, in emission order. -/
inductive GwEv
  | spawnProc
  | connected
  | startSent
  | stopSent
  | disconnect
  | procWait
  | publishEv
  | busyCleared
deriving DecidableEq, Repr

/-- Observable result of one `stt_once` run.  `result` is the returned
transcript, or `.error ()` when an exception propagated out of the
coroutine; `procAlive` is whether the capture process is still running
when the coroutine finishes (the code never terminates it, so this is
decided by the process alone). -/
structure SttRes where
  result : Except Unit (Option String)
  disconnected : Bool
  stopSent : Bool
  procAlive : Bool
  deadline : Int
  trace : List GwEv
deriving Repr

/-- `stt_once(seconds)` under environment `env`. -/
def stt_once (seconds : Int) (env : SttEnv) : SttRes :=
  let alive := !env.procSelfExited
  let dl : Int := max 6 (seconds + 3)
  if env.connectOk = false then
    { result := .error (), disconnected := false, stopSent := false,
      procAlive := alive, deadline := dl, trace := [.spawnProc] }
  else if env.startOk = false then
    { result := .error (), disconnected := false, stopSent := false,
      procAlive := alive, deadline := dl, trace := [.spawnProc, .connected] }
  else if env.stopOk = false then
    { result := .error (), disconnected := false, stopSent := false,
      procAlive := alive, deadline := dl, trace := [.spawnProc, .connected, .startSent] }
  else if chunkPhase env.chunks = .errored then
    { result := .error (), disconnected := false, stopSent := true,
      procAlive := alive, deadline := dl,
      trace := [.spawnProc, .connected, .startSent, .stopSent] }
  else
    match evtPhase env.evts with
    | .error _ =>
      { result := .error (), disconnected := true, stopSent := true,
        procAlive := alive, deadline := dl,
        trace := [.spawnProc, .connected, .startSent, .stopSent, .disconnect] }
    | .ok t =>
      { result := .ok t, disconnected := true, stopSent := true,
        procAlive := alive, deadline := dl,
        trace := [.spawnProc, .connected, .startSent, .stopSent, .disconnect, .procWait] }

/-- Digits-only decimal reader, used to model `float(...)` literals. -/
def decDigits? (l : List Char) : Option Nat :=
  if l.length > 0 && l.all Char.isDigit then
    some (l.foldl (fun a c => a * 10 + (c.toNat - 48)) 0)
  else none

/-- Split a character list at every occurrence of `c`. -/
def splitOnChar (c : Char) (l : List Char) : List (List Char) :=
  l.foldr
    (fun a acc =>
      if a = c then [] :: acc
      else match acc with
        | h :: t => (a :: h) :: t
        | [] => [[a]])
    [[]]

/-- Model of Python `int(float(raw))` on plain decimal literals
(optional sign, digits, optional fractional part): `none` means `float`
raises `ValueError`; truncation is toward zero. -/
def pyIntFloat (s : String) : Option Int :=
  let sb : Int × List Char :=
    match s.data with
    | '-' :: rest => (-1, rest)
    | '+' :: rest => (1, rest)
    | l => (1, l)
  match splitOnChar '.' sb.2 with
  | [a] => (decDigits? a).map fun n => sb.1 * n
  | [a, b] =>
    if a.isEmpty && b.isEmpty then none
    else if (a.isEmpty || (decDigits? a).isSome) && (b.isEmpty || (decDigits? b).isSome) then
      some (sb.1 * ((decDigits? a).getD 0))
    else none
  | _ => none

/-- Lines 203-206 of `on_message`:
`secs = int(float(raw)) if raw else STT_SECS_DEFAULT`, with the
`except` clause also falling back to the default. -/
def parseSecs (dflt : Int) (raw : String) : Int :=
  if raw = "" then dflt else (pyIntFloat raw).getD dflt

/-- The `{text, secs}` message published to `stt/text`. -/
structure TranscriptMsg where
  text : String
  secs : Int
deriving DecidableEq, Repr

/-- Observable outcome of the `stt/capture` branch of `on_message`
together with the future's done-callback. -/
structure CapOutcome where
  spawned : Nat
  secsUsed : Int
  published : Option TranscriptMsg
  busyAfter : Bool
  cleanupDone : Bool
  procAlive : Bool
  trace : List GwEv
deriving Repr

/-- The `stt/capture` branch of `on_message` (lines 200-222): parse the
payload, drop the request when busy, otherwise run `stt_once`; the
done-callback turns an exception into `None`, publishes `{text, secs}`
iff the transcript is truthy, and then clears the busy flag. -/
def onCaptureMsg (dflt : Int) (busy : Bool) (raw : String) (env : SttEnv) : CapOutcome :=
  let secs := parseSecs dflt raw
  if busy then
    { spawned := 0, secsUsed := secs, published := none, busyAfter := true,
      cleanupDone := false, procAlive := false, trace := [] }
  else
    let r := stt_once secs env
    let txt : Option String := match r.result with
      | .ok t => t
      | .error _ => none
    let pub : Option TranscriptMsg := match txt with
      | some t => if t = "" then none else some { text := t, secs := secs }
      | none => none
    { spawned := 1, secsUsed := secs, published := pub, busyAfter := false,
      cleanupDone := r.disconnected, procAlive := r.procAlive,
      trace := r.trace ++ (match pub with | some _ => [GwEv.publishEv] | none => []) ++ [GwEv.busyCleared] }

/-- An environment whose connect, start-of-stream write, streaming loop
and end-of-stream write all succeed (the paths on which `stt_once`
reaches its transcript-wait and cleanup code). -/
def GoodStream (env : SttEnv) : Prop :=
  env.connectOk = true ∧ env.startOk = true ∧ env.stopOk = true ∧
    chunkPhase env.chunks ≠ .errored

/-- A recognizer event that yields a publishable transcript: a
transcript-class event with a non-empty text field. -/
def isQual : EvtOut → Bool
  | .evt ty (some t) => (ty == "transcript" || ty == "text") && t != ""
  | _ => false

/-- An event the transcript-wait loop skips over (non transcript-class). -/
def isSkip : EvtOut → Bool
  | .evt ty _ => !(ty == "transcript" || ty == "text")
  | _ => false

/-! ### Helper lemmas about the capture model -/

theorem evtPhase_append_skip :
    ∀ (pre : List EvtOut) (o : EvtOut) (rest : List EvtOut),
      (∀ x ∈ pre, isSkip x = true) →
      evtPhase (pre ++ o :: rest) = evtPhase (o :: rest) := by
  intro pre o rest h
  induction pre with
  | nil => rfl
  | cons a t ih =>
    have ha : isSkip a = true := h a (List.mem_cons_self a t)
    have ht : ∀ x ∈ t, isSkip x = true := fun x hx => h x (List.mem_cons_of_mem a hx)
    cases a with
    | etimeout => simp [isSkip] at ha
    | eend => simp [isSkip] at ha
    | eerr => simp [isSkip] at ha
    | evt ty txt =>
      have hty : ¬(ty = "transcript" ∨ ty = "text") := by
        simp [isSkip] at ha
        simpa using ha
      simp only [List.cons_append, evtPhase, if_neg hty]
      exact ih ht

theorem evtPhase_no_qual :
    ∀ (l : List EvtOut), (∀ o ∈ l, isQual o = false) →
      ∀ t : String, evtPhase l ≠ .ok (some t) := by
  intro l h
  induction l with
  | nil => intro t hc; simp [evtPhase] at hc
  | cons a rest ih =>
    intro t hc
    have ha : isQual a = false := h a (List.mem_cons_self a rest)
    have hrest : ∀ o ∈ rest, isQual o = false := fun o ho => h o (List.mem_cons_of_mem a ho)
    cases a with
    | etimeout => simp [evtPhase] at hc
    | eend => simp [evtPhase] at hc
    | eerr => simp [evtPhase] at hc
    | evt ty txt =>
      by_cases hty : ty = "transcript" ∨ ty = "text"
      · simp only [evtPhase] at hc
        rw [if_pos hty] at hc
        cases txt with
        | none => simp at hc
        | some u =>
          have hu : u = "" := by
            simp [isQual] at ha
            exact ha hty
          rw [hu] at hc
          simp at hc
      · simp only [evtPhase] at hc
        rw [if_neg hty] at hc
        exact ih hrest t hc

theorem evtPhase_ok_some :
    ∀ (l : List EvtOut) (t : String), evtPhase l = .ok (some t) →
      t ≠ "" ∧ ∃ pre ty rest, l = pre ++ EvtOut.evt ty (some t) :: rest ∧
        (ty = "transcript" ∨ ty = "text") := by
  intro l
  induction l with
  | nil => intro t h; simp [evtPhase] at h
  | cons a rest ih =>
    intro t h
    cases a with
    | etimeout => simp [evtPhase] at h
    | eend => simp [evtPhase] at h
    | eerr => simp [evtPhase] at h
    | evt ty txt =>
      by_cases hty : ty = "transcript" ∨ ty = "text"
      · simp only [evtPhase] at h
        rw [if_pos hty] at h
        cases txt with
        | none => simp at h
        | some u =>
          by_cases hu : u = ""
          · simp [hu] at h
          · simp [hu] at h
            subst h
            exact ⟨hu, [], ty, rest, rfl, hty⟩
      · simp only [evtPhase] at h
        rw [if_neg hty] at h
        obtain ⟨ht, pre, ty1, rest1, heq, hty1⟩ := ih t h
        exact ⟨ht, .evt ty txt :: pre, ty1, rest1, by rw [List.cons_append, heq], hty1⟩

theorem stt_once_deadline (seconds : Int) (env : SttEnv) :
    (stt_once seconds env).deadline = max 6 (seconds + 3) := by
  unfold stt_once
  repeat' split
  all_goals rfl

theorem stt_once_procAlive (seconds : Int) (env : SttEnv) :
    (stt_once seconds env).procAlive = !env.procSelfExited := by
  unfold stt_once
  repeat' split
  all_goals rfl

theorem stt_once_good_result {seconds : Int} {env : SttEnv} (h : GoodStream env) :
    (stt_once seconds env).result = evtPhase env.evts := by
  obtain ⟨h1, h2, h3, h4⟩ := h
  unfold stt_once
  simp only [h1, h2, h3, if_neg h4]
  rcases hm : evtPhase env.evts with u | t
  · cases u; simp
  · simp

theorem stt_once_good_disconnected {seconds : Int} {env : SttEnv} (h : GoodStream env) :
    (stt_once seconds env).disconnected = true := by
  obtain ⟨h1, h2, h3, h4⟩ := h
  unfold stt_once
  simp only [h1, h2, h3, if_neg h4]
  rcases hm : evtPhase env.evts with u | t <;> simp

theorem stt_once_good_disconnect_mem {seconds : Int} {env : SttEnv} (h : GoodStream env) :
    GwEv.disconnect ∈ (stt_once seconds env).trace := by
  obtain ⟨h1, h2, h3, h4⟩ := h
  unfold stt_once
  simp only [h1, h2, h3, if_neg h4]
  rcases hm : evtPhase env.evts with u | t <;> simp

theorem stt_once_result_ok {seconds : Int} {env : SttEnv} {t : Option String}
    (h : (stt_once seconds env).result = .ok t) : evtPhase env.evts = .ok t := by
  by_cases h1 : env.connectOk = false
  · simp [stt_once, h1] at h
  by_cases h2 : env.startOk = false
  · simp [stt_once, h1, h2] at h
  by_cases h3 : env.stopOk = false
  · simp [stt_once, h1, h2, h3] at h
  by_cases h4 : chunkPhase env.chunks = .errored
  · simp [stt_once, h1, h2, h3, h4] at h
  have hg : GoodStream env :=
    ⟨by revert h1; cases env.connectOk <;> simp,
     by revert h2; cases env.startOk <;> simp,
     by revert h3; cases env.stopOk <;> simp, h4⟩
  rw [← @stt_once_good_result seconds env hg]
  exact h

theorem onCaptureMsg_published (dflt : Int) (raw : String) (env : SttEnv) :
    (onCaptureMsg dflt false raw env).published =
      (match (stt_once (parseSecs dflt raw) env).result with
       | .ok (some t) => if t = "" then none
                         else some { text := t, secs := parseSecs dflt raw }
       | _ => none) := by
  unfold onCaptureMsg
  rcases h : (stt_once (parseSecs dflt raw) env).result with u | t
  · simp [h]
  · rcases t with _ | t <;> simp [h]

theorem onCaptureMsg_trace (dflt : Int) (raw : String) (env : SttEnv) :
    (onCaptureMsg dflt false raw env).trace =
      ((stt_once (parseSecs dflt raw) env).trace ++
        (match (onCaptureMsg dflt false raw env).published with
         | some _ => [GwEv.publishEv]
         | none => [])) ++ [GwEv.busyCleared] := by
  rcases h : (stt_once (parseSecs dflt raw) env).result with u | t
  · simp [onCaptureMsg, h]
  · rcases t with _ | t
    · simp [onCaptureMsg, h]
    · by_cases ht : t = "" <;> simp [onCaptureMsg, h, ht]

/-! ## Theorems for claims C3, C5, C6 and C10 -/

/-- C3 counterexample: when the connection to the STT service fails,
`stt_once` raises after the capture `arecord` was already spawned; the
done-callback still clears the busy flag, although no cleanup ran (no
disconnect) and the capture process is still running.  This refutes "the
busy flag is cleared only after the cleanup of the in-flight capture
completes": immediately afterwards a second request would be accepted
while the first capture process is still alive. -/
theorem busy_cleared_without_cleanup :
    (onCaptureMsg 3 false "3"
        { connectOk := false, startOk := true, chunks := [], stopOk := true,
          evts := [], procSelfExited := false }).busyAfter = false ∧
    (onCaptureMsg 3 false "3"
        { connectOk := false, startOk := true, chunks := [], stopOk := true,
          evts := [], procSelfExited := false }).cleanupDone = false ∧
    (onCaptureMsg 3 false "3"
        { connectOk := false, startOk := true, chunks := [], stopOk := true,
          evts := [], procSelfExited := false }).procAlive = true := by
  refine ⟨rfl, rfl, rfl⟩

/-- C3 amended: a `stt/capture` request arriving while busy is a no-op —
zero capture processes spawned, nothing published, the flag left set; the
busy flag is cleared only when the capture coroutine finishes, and on
every run whose connect, start-of-stream, streaming loop and end-of-stream
write succeed, the session cleanup (disconnect) has completed before the
clear (the clear is the last event of the trace and the disconnect occurs
strictly before it).  On a run that raises before reaching the cleanup
code (e.g. connection failure) the flag is cleared without the cleanup
having run. -/
theorem capture_busy_noop_amended :
    (∀ (dflt : Int) (raw : String) (env : SttEnv),
      (onCaptureMsg dflt true raw env).spawned = 0 ∧
      (onCaptureMsg dflt true raw env).published = none ∧
      (onCaptureMsg dflt true raw env).busyAfter = true) ∧
    (∀ (dflt : Int) (raw : String) (env : SttEnv), GoodStream env →
      (onCaptureMsg dflt false raw env).cleanupDone = true ∧
      GwEv.disconnect ∈ (onCaptureMsg dflt false raw env).trace.dropLast ∧
      (onCaptureMsg dflt false raw env).trace.getLast? = some GwEv.busyCleared) := by
  constructor
  · intro dflt raw env
    exact ⟨rfl, rfl, rfl⟩
  · intro dflt raw env hg
    refine ⟨?_, ?_, ?_⟩
    · show (onCaptureMsg dflt false raw env).cleanupDone = true
      unfold onCaptureMsg
      simp only [Bool.false_eq_true, if_false]
      exact stt_once_good_disconnected hg
    · rw [onCaptureMsg_trace, List.dropLast_concat]
      exact List.mem_append_left _ (stt_once_good_disconnect_mem hg)
    · rw [onCaptureMsg_trace, List.getLast?_concat]

/-- Witness for `capture_busy_noop_amended` at a concrete busy state and a
concrete good-stream run. -/
theorem capture_busy_noop_amended_witness :
    (onCaptureMsg 3 true "3"
        { connectOk := true, startOk := true, chunks := [ChunkOut.eof], stopOk := true,
          evts := [EvtOut.eend], procSelfExited := true }).spawned = 0 ∧
    (onCaptureMsg 3 false "3"
        { connectOk := true, startOk := true, chunks := [ChunkOut.eof], stopOk := true,
          evts := [EvtOut.eend], procSelfExited := true }).cleanupDone = true :=
  ⟨(capture_busy_noop_amended.1 3 "3"
      { connectOk := true, startOk := true, chunks := [ChunkOut.eof], stopOk := true,
        evts := [EvtOut.eend], procSelfExited := true }).1,
   (capture_busy_noop_amended.2 3 "3"
      { connectOk := true, startOk := true, chunks := [ChunkOut.eof], stopOk := true,
        evts := [EvtOut.eend], procSelfExited := true }
      ⟨rfl, rfl, rfl, by decide⟩).1⟩

/-- C5 counterexample: a hung capture process (read timeout, the process
never exits on its own).  `stt_once` completes an orderly exit path — read
timeout caught, `AudioStop` sent, transcript wait ended, session
disconnected — yet the capture process is still running when the coroutine
returns: the code contains no terminate/kill for it.  This refutes "on
every exit path ... the capture process is terminated". -/
theorem capture_proc_not_terminated :
    (stt_once 3
        { connectOk := true, startOk := true, chunks := [ChunkOut.rtimeout],
          stopOk := true, evts := [EvtOut.eend], procSelfExited := false }).result =
      Except.ok none ∧
    (stt_once 3
        { connectOk := true, startOk := true, chunks := [ChunkOut.rtimeout],
          stopOk := true, evts := [EvtOut.eend], procSelfExited := false }).disconnected = true ∧
    (stt_once 3
        { connectOk := true, startOk := true, chunks := [ChunkOut.rtimeout],
          stopOk := true, evts := [EvtOut.eend], procSelfExited := false }).procAlive = true := by
  refine ⟨rfl, rfl, rfl⟩

/-- C5 amended: on every exit path of a capture session the busy lease is
released; on every path whose connect, start-of-stream, streaming loop and
end-of-stream write succeed (timeout, transcript, transcript-wait error)
the recognition session is disconnected; and the capture process is never
terminated by the code — it is alive at exit exactly when it did not exit
on its own (the code only waits up to 2 s for it, swallowing errors). -/
theorem stt_cleanup_amended :
    (∀ (dflt : Int) (raw : String) (env : SttEnv),
      (onCaptureMsg dflt false raw env).busyAfter = false) ∧
    (∀ (seconds : Int) (env : SttEnv), GoodStream env →
      (stt_once seconds env).disconnected = true) ∧
    (∀ (seconds : Int) (env : SttEnv),
      (stt_once seconds env).procAlive = !env.procSelfExited) := by
  refine ⟨fun dflt raw env => rfl, fun seconds env hg => stt_once_good_disconnected hg,
    stt_once_procAlive⟩

/-- Witness for `stt_cleanup_amended` on a concrete timed-out session. -/
theorem stt_cleanup_amended_witness :
    (onCaptureMsg 3 false ""
        { connectOk := true, startOk := true, chunks := [], stopOk := true,
          evts := [EvtOut.etimeout], procSelfExited := true }).busyAfter = false ∧
    (stt_once 3
        { connectOk := true, startOk := true, chunks := [], stopOk := true,
          evts := [EvtOut.etimeout], procSelfExited := true }).disconnected = true :=
  ⟨stt_cleanup_amended.1 3 ""
      { connectOk := true, startOk := true, chunks := [], stopOk := true,
        evts := [EvtOut.etimeout], procSelfExited := true },
   stt_cleanup_amended.2.1 3
      { connectOk := true, startOk := true, chunks := [], stopOk := true,
        evts := [EvtOut.etimeout], procSelfExited := true }
      ⟨rfl, rfl, rfl, by decide⟩⟩

/-- C6: the transcript deadline is `max(6, seconds + 3)`; if a
transcript-class event with a non-empty text arrives before the deadline
(possibly after skipped non-transcript events), `{text, secs}` is
published to `stt/text`; if the deadline expires, the stream ends, or no
qualifying event arrives, nothing is published, the busy lease is released
and the handler completes (the coroutine's `TimeoutError` is absorbed by
the done-callback, so no error propagates out of the orchestrator). -/
theorem stt_publish_or_silent_timeout :
    (∀ (seconds : Int) (env : SttEnv),
      (stt_once seconds env).deadline = max 6 (seconds + 3)) ∧
    (∀ (dflt : Int) (raw : String) (env : SttEnv) (pre rest : List EvtOut) (ty t : String),
      GoodStream env → env.evts = pre ++ EvtOut.evt ty (some t) :: rest →
      (∀ o ∈ pre, isSkip o = true) → (ty = "transcript" ∨ ty = "text") → t ≠ "" →
      (onCaptureMsg dflt false raw env).published =
        some { text := t, secs := parseSecs dflt raw }) ∧
    (∀ (dflt : Int) (raw : String) (env : SttEnv),
      (∀ o ∈ env.evts, isQual o = false) →
      (onCaptureMsg dflt false raw env).published = none ∧
      (onCaptureMsg dflt false raw env).busyAfter = false) := by
  refine ⟨stt_once_deadline, ?_, ?_⟩
  · intro dflt raw env pre rest ty t hg he hpre hty ht
    have hevt : evtPhase env.evts = .ok (some t) := by
      rw [he, evtPhase_append_skip pre _ rest hpre]
      simp only [evtPhase]
      rw [if_pos hty]
      simp [ht]
    rw [onCaptureMsg_published, stt_once_good_result hg, hevt]
    simp [ht]
  · intro dflt raw env hq
    refine ⟨?_, rfl⟩
    rw [onCaptureMsg_published]
    rcases h : (stt_once (parseSecs dflt raw) env).result with u | t
    · rfl
    · rcases t with _ | t
      · rfl
      · exact absurd (stt_once_result_ok h) (evtPhase_no_qual env.evts hq t)

/-- Witness for `stt_publish_or_silent_timeout`: the deadline for a 4 s
capture, a successful publish after one skipped event, and a silent
deadline expiry. -/
theorem stt_publish_or_silent_timeout_witness :
    (stt_once 4
        { connectOk := true, startOk := true, chunks := [], stopOk := true,
          evts := [], procSelfExited := true }).deadline = 7 ∧
    (onCaptureMsg 3 false "4"
        { connectOk := true, startOk := true, chunks := [ChunkOut.data, ChunkOut.eof],
          stopOk := true, evts := [EvtOut.evt "other" none, EvtOut.evt "transcript" (some "hello")],
          procSelfExited := true }).published = some { text := "hello", secs := 4 } ∧
    (onCaptureMsg 3 false "4"
        { connectOk := true, startOk := true, chunks := [ChunkOut.eof], stopOk := true,
          evts := [EvtOut.etimeout], procSelfExited := true }).published = none := by
  refine ⟨by rw [stt_publish_or_silent_timeout.1 4]; decide, ?_, ?_⟩
  · have h := stt_publish_or_silent_timeout.2.1 3 "4"
      { connectOk := true, startOk := true, chunks := [ChunkOut.data, ChunkOut.eof],
        stopOk := true, evts := [EvtOut.evt "other" none, EvtOut.evt "transcript" (some "hello")],
        procSelfExited := true }
      [EvtOut.evt "other" none] [] "transcript" "hello"
      ⟨rfl, rfl, rfl, by decide⟩ rfl (by decide) (Or.inl rfl) (by decide)
    simpa using h
  · exact (stt_publish_or_silent_timeout.2.2 3 "4"
      { connectOk := true, startOk := true, chunks := [ChunkOut.eof], stopOk := true,
        evts := [EvtOut.etimeout], procSelfExited := true } (by decide)).1

/-- C10: a message is published to `stt/text` only when the recognizer
returned a transcript-class event whose text field is a non-empty string;
a transcript-class event with a missing, null or empty text field ends the
transcript wait (later events — even qualifying ones — are never
consumed) but results in no publish. -/
theorem publish_iff_nonempty_transcript :
    (∀ (dflt : Int) (busy : Bool) (raw : String) (env : SttEnv) (m : TranscriptMsg),
      (onCaptureMsg dflt busy raw env).published = some m →
      m.text ≠ "" ∧ ∃ pre ty rest,
        env.evts = pre ++ EvtOut.evt ty (some m.text) :: rest ∧
        (ty = "transcript" ∨ ty = "text")) ∧
    (∀ (dflt : Int) (raw : String) (env : SttEnv) (pre rest : List EvtOut)
        (ty : String) (txt : Option String),
      GoodStream env → env.evts = pre ++ EvtOut.evt ty txt :: rest →
      (∀ o ∈ pre, isSkip o = true) → (ty = "transcript" ∨ ty = "text") →
      (txt = none ∨ txt = some "") →
      (stt_once (parseSecs dflt raw) env).result = Except.ok none ∧
      (onCaptureMsg dflt false raw env).published = none) := by
  constructor
  · intro dflt busy raw env m hm
    cases busy with
    | true => exact absurd hm (by simp [onCaptureMsg])
    | false =>
      rw [onCaptureMsg_published] at hm
      rcases h : (stt_once (parseSecs dflt raw) env).result with u | t
      · rw [h] at hm; cases hm
      · rcases t with _ | t
        · rw [h] at hm; cases hm
        · rw [h] at hm
          have hm2 : (if t = "" then (none : Option TranscriptMsg)
              else some { text := t, secs := parseSecs dflt raw }) = some m := hm
          by_cases ht : t = ""
          · rw [if_pos ht] at hm2; cases hm2
          · rw [if_neg ht] at hm2
            have hmr := Option.some.inj hm2
            obtain ⟨ht2, pre, ty, rest, heq, hty⟩ :=
              evtPhase_ok_some env.evts t (stt_once_result_ok h)
            refine ⟨?_, pre, ty, rest, ?_, hty⟩
            · rw [← hmr]; exact ht2
            · rw [← hmr]; exact heq
  · intro dflt raw env pre rest ty txt hg he hpre hty htxt
    have hevt : evtPhase env.evts = .ok none := by
      rw [he, evtPhase_append_skip pre _ rest hpre]
      simp only [evtPhase]
      rw [if_pos hty]
      rcases htxt with h | h
      · rw [h]
      · rw [h]; simp
    have hres : (stt_once (parseSecs dflt raw) env).result = Except.ok none := by
      rw [stt_once_good_result hg, hevt]
    refine ⟨hres, ?_⟩
    rw [onCaptureMsg_published, hres]

/-- Witness for `publish_iff_nonempty_transcript`: a published transcript
has a qualifying source event, and an empty-text transcript event silences
the capture even though a qualifying event follows it. -/
theorem publish_iff_nonempty_transcript_witness :
    ("hi" : String) ≠ "" ∧
    (onCaptureMsg 3 false "2"
        { connectOk := true, startOk := true, chunks := [ChunkOut.eof], stopOk := true,
          evts := [EvtOut.evt "text" (some ""), EvtOut.evt "text" (some "later")],
          procSelfExited := true }).published = none := by
  constructor
  · exact ((publish_iff_nonempty_transcript.1 3 false "2"
      { connectOk := true, startOk := true, chunks := [ChunkOut.eof], stopOk := true,
        evts := [EvtOut.evt "text" (some "hi")], procSelfExited := true }
      { text := "hi", secs := 2 } (by rfl)).1)
  · exact (publish_iff_nonempty_transcript.2 3 "2"
      { connectOk := true, startOk := true, chunks := [ChunkOut.eof], stopOk := true,
        evts := [EvtOut.evt "text" (some ""), EvtOut.evt "text" (some "later")],
        procSelfExited := true }
      [] [EvtOut.evt "text" (some "later")] "text" (some "")
      ⟨rfl, rfl, rfl, by decide⟩ rfl (by simp) (Or.inr rfl) (Or.inr rfl)).2

/-! ## Dialogue router (dialogue_router.py, `intent_reply` lines 16-27,
`on_message` lines 33-48) and malformed inbound payloads

The router's `on_message` decodes and strips the payload; a payload
starting with a brace goes through `json.loads(...).get("text")` with the
`except` clause falling back to an empty text.  `intent_reply("")` returns
the fallback sentence, and any non-empty reply is published to `tts/say`.
On the gateway side, a malformed `stt/capture` payload makes
`int(float(raw))` raise, and the `except` clause substitutes
`STT_SECS_DEFAULT` — after which the capture proceeds normally. -/

/-- Does the stripped payload start with a brace (`payload.startswith`)? -/
def pyStartsBrace (s : String) : Bool :=
  match s.data with
  | c :: _ => c = '{'
  | [] => false

/-- Model of Python's `in` on strings: does `needle` occur as a
contiguous substring of the haystack? -/
def containsSub (needle : List Char) : List Char → Bool
  | [] => needle.isEmpty
  | c :: rest => needle.isPrefixOf (c :: rest) || containsSub needle rest

/-- `intent_reply(text)` of the dialogue router.  `timeStr` models the
`datetime.now().strftime(...)` result (external). -/
def intent_reply (timeStr : String) (text : String) : String :=
  let t := pyStrip text
  if t = "" then "I didn\x27t catch that."
  else
    let low := t.toLower
    if "say ".data.isPrefixOf low.data then
      let r := pyStrip (String.mk (t.data.drop 4))
      if r = "" then "Okay." else r
    else if containsSub "what time".data low.data || containsSub "time is it".data low.data then
      timeStr
    else if containsSub "your name".data low.data || containsSub "who are you".data low.data then
      "I am Oscar\x27s voice assistant."
    else "You said: " ++ t

/-- The router's `on_message`: decode+strip, extract the text (through
JSON when the payload starts with a brace), compute the reply, publish it
to `tts/say` when non-empty.  `jsonText` models
`json.loads(payload).get("text")`: `none` covers an unparsable payload
(the `except` clause), a missing/null field (`or ""`) and a non-string
field (`.strip()` raising inside the `try`). -/
def routerOnMessage (timeStr : String) (payload : String) (jsonText : Option String) :
    Option String :=
  let p := pyStrip payload
  let text :=
    if pyStartsBrace p then
      match jsonText with
      | some u => pyStrip u
      | none => ""
    else p
  let reply := intent_reply timeStr text
  if reply = "" then none else some reply

/-! ## Theorems for claim C9 -/

/-- C9 counterexample: a non-numeric `stt/capture` payload (`"abc"`) is
not ignored — the gateway substitutes the default duration (3 s) and
spawns a capture; and an unparsable `stt/text` JSON payload makes the
router publish the fallback reply to `tts/say`.  Neither consumer crashes,
but both take an action, refuting "no capture or reply action is taken on
the malformed payload". -/
theorem malformed_payload_actions :
    (onCaptureMsg 3 false "abc"
        { connectOk := true, startOk := true, chunks := [ChunkOut.eof], stopOk := true,
          evts := [EvtOut.eend], procSelfExited := true }).spawned = 1 ∧
    (onCaptureMsg 3 false "abc"
        { connectOk := true, startOk := true, chunks := [ChunkOut.eof], stopOk := true,
          evts := [EvtOut.eend], procSelfExited := true }).secsUsed = 3 ∧
    routerOnMessage "It is 1:00 PM." "\x7bgarbage" none = some "I didn\x27t catch that." := by
  refine ⟨rfl, rfl, rfl⟩

/-- C9 amended: a malformed inbound payload never crashes the consumer
(both handlers are total), but it is not ignored: the gateway runs a
capture with the default duration for any non-numeric non-empty
`stt/capture` payload, and the router answers any brace-led `stt/text`
payload whose JSON yields no text with the fallback reply. -/
theorem malformed_payload_amended :
    (∀ (raw : String) (env : SttEnv), raw ≠ "" → pyIntFloat raw = none →
      (onCaptureMsg 3 false raw env).spawned = 1 ∧
      (onCaptureMsg 3 false raw env).secsUsed = 3) ∧
    (∀ (timeStr payload : String), pyStartsBrace (pyStrip payload) = true →
      routerOnMessage timeStr payload none = some "I didn\x27t catch that.") := by
  constructor
  · intro raw env hraw hparse
    refine ⟨rfl, ?_⟩
    show parseSecs 3 raw = 3
    rw [parseSecs, if_neg hraw, hparse]
    rfl
  · intro timeStr payload hb
    unfold routerOnMessage
    simp only [hb, if_true]
    rfl

/-- Witness for `malformed_payload_amended` at concrete malformed
payloads. -/
theorem malformed_payload_amended_witness :
    (onCaptureMsg 3 false "xyz"
        { connectOk := false, startOk := true, chunks := [], stopOk := true,
          evts := [], procSelfExited := true }).secsUsed = 3 ∧
    routerOnMessage "It is 2:00 PM." " \x7b " none = some "I didn\x27t catch that." :=
  ⟨(malformed_payload_amended.1 "xyz"
      { connectOk := false, startOk := true, chunks := [], stopOk := true,
        evts := [], procSelfExited := true } (by decide) (by rfl)).2,
   malformed_payload_amended.2 "It is 2:00 PM." " \x7b " (by rfl)⟩

/-! ## Joint interleaving model: wake listener vs. capture side (C1)

The two processes that open the microphone are the wake listener's
`arecord` (spawned by `spawn_arecord`, stopped by the suspend path,
respawned after `await asyncio.sleep(CAPTURE_SECS + 0.2)`) and the
gateway's `arecord -d seconds` (spawned by `stt_once` when a
`stt/capture` message is delivered and the busy flag is clear).

There is no arbiter object in the code: the wake listener publishes the
capture request over MQTT and resumes after a wall-clock sleep.  The model
is an interleaving transition system whose actions are the await points of
both sides plus message delivery; sleeps and message deliveries complete
at scheduler-chosen instants, since nothing in the code synchronises them.
`Act.stopRetOk` / `Act.stopRetStuck` are the two possible returns of
`stop_arecord` (the process did / did not exit within the bounded
terminate-kill waits). -/

/-- Control location of the wake listener inside one wake cycle. -/
inductive WakeLoc
  | streaming
  | cancelling
  | stopping
  | publishing
  | sleeping
deriving DecidableEq, Repr, Fintype

/-- Control location of the gateway's capture side. -/
inductive GwLoc
  | idle
  | spawning
  | active
  | cleanup
deriving DecidableEq, Repr, Fintype

/-- Joint state: wake-listener location, liveness of its `arecord`, an
in-flight `stt/capture` message, gateway location, liveness of the
gateway's `arecord`. -/
structure Sys where
  wakeLoc : WakeLoc
  wakeProcAlive : Bool
  capPending : Bool
  gwLoc : GwLoc
  capProcAlive : Bool
deriving DecidableEq, Repr, Fintype

/-- Scheduler actions: each is one await point / callback of the code. -/
inductive Act
  | wakeEvt
  | pumpDone
  | stopRetOk
  | stopRetStuck
  | pubCapture
  | wakeRespawn
  | deliver
  | gwSpawn
  | capExit
  | gwFinish
deriving DecidableEq, Repr, Fintype

/-- One step of the joint system; an action not enabled at `s` is a
no-op (the scheduler cannot run a continuation that is not pending). -/
def stepSys (s : Sys) : Act → Sys
  | .wakeEvt =>
    if s.wakeLoc = .streaming then { s with wakeLoc := .cancelling } else s
  | .pumpDone =>
    if s.wakeLoc = .cancelling then { s with wakeLoc := .stopping } else s
  | .stopRetOk =>
    if s.wakeLoc = .stopping then
      { s with wakeLoc := .publishing, wakeProcAlive := false }
    else s
  | .stopRetStuck =>
    if s.wakeLoc = .stopping then { s with wakeLoc := .publishing } else s
  | .pubCapture =>
    if s.wakeLoc = .publishing then
      { s with wakeLoc := .sleeping, capPending := true }
    else s
  | .wakeRespawn =>
    if s.wakeLoc = .sleeping then
      { s with wakeLoc := .streaming, wakeProcAlive := true }
    else s
  | .deliver =>
    if s.capPending then
      if s.gwLoc = .idle then { s with capPending := false, gwLoc := .spawning }
      else { s with capPending := false }
    else s
  | .gwSpawn =>
    if s.gwLoc = .spawning then { s with gwLoc := .active, capProcAlive := true } else s
  | .capExit =>
    if s.gwLoc = .active then { s with gwLoc := .cleanup, capProcAlive := false } else s
  | .gwFinish =>
    if s.gwLoc = .cleanup then { s with gwLoc := .idle } else s

/-- Run a schedule (list of actions). -/
def runSys : Sys → List Act → Sys
  | s, [] => s
  | s, a :: rest => runSys (stepSys s a) rest

/-- Initial state: wake listener streaming with a live `arecord`, gateway
idle, nothing in flight. -/
def sysInit : Sys :=
  { wakeLoc := .streaming, wakeProcAlive := true, capPending := false,
    gwLoc := .idle, capProcAlive := false }

/-- Both capture processes hold the microphone device. -/
def bothHoldMic (s : Sys) : Bool :=
  s.wakeProcAlive && s.capProcAlive

/-- The timing assumptions the code relies on (they are not enforced by
any synchronisation): the wake `arecord` exits within `stop_arecord`'s
bounded waits, and the resume sleep `CAPTURE_SECS + 0.2` expires only
after the capture request has been delivered and fully serviced. -/
def timelyA (s : Sys) : Act → Bool
  | .stopRetStuck => false
  | .wakeRespawn => !s.capPending && (match s.gwLoc with | .idle => true | _ => false)
  | _ => true

/-- A schedule all of whose actions respect `timelyA` at the state where
they fire. -/
def timelyRun : Sys → List Act → Bool
  | _, [] => true
  | s, a :: rest => timelyA s a && timelyRun (stepSys s a) rest

/-- Inductive invariant of timely runs. -/
def sysInv (s : Sys) : Bool :=
  (s.wakeProcAlive = (match s.wakeLoc with
    | .streaming => true | .cancelling => true | .stopping => true | _ => false) : Bool) &&
  (!s.capPending || (match s.wakeLoc with | .sleeping => true | _ => false)) &&
  ((match s.gwLoc with | .idle => true | _ => false) ||
    (match s.wakeLoc with | .sleeping => true | _ => false)) &&
  (s.capProcAlive = (match s.gwLoc with | .active => true | _ => false) : Bool)

theorem sysInv_init : sysInv sysInit = true := by decide

set_option maxRecDepth 100000 in
theorem sysInv_step :
    ∀ (s : Sys) (a : Act), sysInv s = true → timelyA s a = true →
      sysInv (stepSys s a) = true := by
  decide

set_option maxRecDepth 100000 in
theorem sysInv_mutex : ∀ s : Sys, sysInv s = true → bothHoldMic s = false := by
  decide

theorem sysInv_run :
    ∀ (acts : List Act) (s : Sys), sysInv s = true → timelyRun s acts = true →
      sysInv (runSys s acts) = true := by
  intro acts
  induction acts with
  | nil => intro s h _; exact h
  | cons a rest ih =>
    intro s h ht
    rw [timelyRun, Bool.and_eq_true] at ht
    exact ih (stepSys s a) (sysInv_step s a h ht.1) ht.2

/-! ## Theorems for claim C1 -/

/-- C1 counterexample: an interleaving in which the capture-request
delivery is delayed past the wake listener's `CAPTURE_SECS + 0.2` resume
sleep (MQTT delivery is asynchronous and unbounded; nothing synchronises
it with the sleep).  The wake listener suspends cleanly, publishes,
sleeps, respawns its `arecord` — and only then is the message delivered,
so the gateway spawns its capture `arecord` while the wake `arecord` is
live: both capture processes hold the microphone at once.  This refutes
"for every interleaving ... at no instant do both exist". -/
theorem mic_overlap_reachable :
    (runSys sysInit
      [Act.wakeEvt, Act.pumpDone, Act.stopRetOk, Act.pubCapture,
       Act.wakeRespawn, Act.deliver, Act.gwSpawn]).wakeProcAlive = true ∧
    (runSys sysInit
      [Act.wakeEvt, Act.pumpDone, Act.stopRetOk, Act.pubCapture,
       Act.wakeRespawn, Act.deliver, Act.gwSpawn]).capProcAlive = true := by
  decide

/-- C1 amended: mutual exclusion of the two capture processes holds on
every schedule satisfying the timing assumptions the code relies on
(`timelyA`): the wake `arecord` exits within `stop_arecord`'s bounded
waits, and the resume sleep expires only after the capture request has
been delivered and the capture fully finished.  Under those assumptions,
no reachable instant has both processes alive (the statement quantifies
over all timely schedules, hence over every instant of every timely
run). -/
theorem mic_mutex_timely :
    ∀ acts : List Act, timelyRun sysInit acts = true →
      bothHoldMic (runSys sysInit acts) = false := by
  intro acts ht
  exact sysInv_mutex _ (sysInv_run acts sysInit sysInv_init ht)

/-- Witness for `mic_mutex_timely` on a concrete full wake-capture-resume
cycle. -/
theorem mic_mutex_timely_witness :
    timelyRun sysInit
      [Act.wakeEvt, Act.pumpDone, Act.stopRetOk, Act.pubCapture, Act.deliver,
       Act.gwSpawn, Act.capExit, Act.gwFinish, Act.wakeRespawn] = true ∧
    bothHoldMic (runSys sysInit
      [Act.wakeEvt, Act.pumpDone, Act.stopRetOk, Act.pubCapture, Act.deliver,
       Act.gwSpawn, Act.capExit, Act.gwFinish, Act.wakeRespawn]) = false :=
  ⟨by decide,
   mic_mutex_timely
     [Act.wakeEvt, Act.pumpDone, Act.stopRetOk, Act.pubCapture, Act.deliver,
      Act.gwSpawn, Act.capExit, Act.gwFinish, Act.wakeRespawn] (by decide)⟩

end RpiRobot
